import Mathlib

/-!
Verification of the monopack_lib repository: a two-axis stepper-motor stage
controller (stages_monopack.py, StagesPI) layered over a per-axis Trinamic
Monopack 2 driver codec (monopack_v2.py, MonoPack).

The MonoPack operations build an 8-byte command list
  [cmd, P0, P1, P2, P3, P4, P5, P6]
which the CAN transport prepends with the device address to form the 9-byte
telegram.  Set operations validate parameters and either raise InvalidValue
(modelled as an error value, no frame produced) or hand exactly one command
list to the transport (modelled as the ok value).  Get operations receive the
8-byte response DATA [cmd, P0..P6] from the transport (modelled as an
optional response record, none standing for a transport failure) and decode
typed fields from it.

Python integers are modelled as Int (Nat for parameters the source never
range-checks), Python floats as Rat, and Python round as round-half-to-even.
-/

/-- Outcomes a Python call in this code base can raise.  invalidValue is the
repository's own InvalidValue(ValueError); structError stands for
struct.error raised by struct.pack on an out-of-range argument;
transportError stands for an exception raised by the CAN transport exchange;
unboundLocal stands for the UnboundLocalError raised when a return statement
reads a variable that was only assigned inside a failed try block; typeError
stands for TypeError (subscripting a bool). -/
inductive PyExc where
  | invalidValue
  | structError
  | transportError
  | unboundLocal
  | typeError
deriving DecidableEq, Repr

/-- Little-endian bytes of a 16-bit value, as produced by struct.pack with
an h or H format for in-range arguments. -/
def pack16 (n : ℕ) : ℕ × ℕ := (n % 256, n / 256 % 256)

/-- Little-endian bytes of a 32-bit value, as produced by struct.pack with
an i, l or I format for in-range arguments. -/
def pack32 (n : ℕ) : ℕ × ℕ × ℕ × ℕ :=
  (n % 256, n / 256 % 256, n / 65536 % 256, n / 16777216 % 256)

/-- MonoPack.set_velocity ($14).  Source check: velocity and acceleration
must both be in range(1, 8192); otherwise InvalidValue is raised before the
transport call.  On success P1,P2 hold the acceleration and P3,P4 the
velocity, little-endian. -/
def set_velocity (P0 : ℕ) (velocity acceleration : ℤ) : Except PyExc (List ℕ) :=
  if ¬(1 ≤ velocity ∧ velocity ≤ 8191) ∨ ¬(1 ≤ acceleration ∧ acceleration ≤ 8191) then
    .error .invalidValue
  else
    let a := pack16 acceleration.toNat
    let v := pack16 velocity.toNat
    .ok [0x14, P0, a.1, a.2, v.1, v.2, 0x0, 0x0]

/-- MonoPack.set_current_control ($11).  Source check: P1, P2, P3 each in
range(256). -/
def set_current_control (P0 : ℕ) (P1 P2 P3 : ℤ) : Except PyExc (List ℕ) :=
  if ¬(0 ≤ P1 ∧ P1 ≤ 255) ∨ ¬(0 ≤ P2 ∧ P2 ≤ 255) ∨ ¬(0 ≤ P3 ∧ P3 ≤ 255) then
    .error .invalidValue
  else
    .ok [0x11, P0, P1.toNat, P2.toNat, P3.toNat, 0x0, 0x0, 0x0]

/-- MonoPack.set_microstep_resolution ($17).  Source check: P1 in
range(1, 68), P2 one of 0x81, 0x00, 0x7F, P5 one of 0, 1. -/
def set_microstep_resolution (P0 : ℕ) (P1 P2 P5 : ℤ) : Except PyExc (List ℕ) :=
  if ¬(1 ≤ P1 ∧ P1 ≤ 67) ∨ ¬(P2 = 0x81 ∨ P2 = 0x00 ∨ P2 = 0x7F) ∨ ¬(P5 = 0 ∨ P5 = 1) then
    .error .invalidValue
  else
    .ok [0x17, P0, P1.toNat, P2.toNat, 0x0, 0x0, P5.toNat, 0x0]

/-- MonoPack.encoder_configuration.  The docstring documents this as command
$70 (manual section 4.5.2), but the source builds the command list with
first element 0x15.  Source check: P1 in range(128), P2 in range(256),
deviation in range(2048), P5 in range(256); P3,P4 hold the deviation
little-endian. -/
def encoder_configuration (P0 : ℕ) (P1 P2 P5 deviation : ℤ) : Except PyExc (List ℕ) :=
  if ¬(0 ≤ P1 ∧ P1 ≤ 127) ∨ ¬(0 ≤ P2 ∧ P2 ≤ 255) ∨ ¬(0 ≤ deviation ∧ deviation ≤ 2047)
      ∨ ¬(0 ≤ P5 ∧ P5 ≤ 255) then
    .error .invalidValue
  else
    let d := pack16 deviation.toNat
    .ok [0x15, P0, P1.toNat, P2.toNat, d.1, d.2, P5.toNat, 0x0]

/-- MonoPack.set_deviation_alarm.  The docstring documents this as command
$73 (manual section 4.5.5), but the source builds the command list with
first element 0x15.  Source check: P1 in \x7b0, 1\x7d, P2 in \x7b0, 1, 2\x7d,
correction_start_after in range(65536). -/
def set_deviation_alarm (P0 : ℕ) (P1 P2 correction_start_after : ℤ) : Except PyExc (List ℕ) :=
  if ¬(P1 = 0 ∨ P1 = 1) ∨ ¬(P2 = 0 ∨ P2 = 1 ∨ P2 = 2)
      ∨ ¬(0 ≤ correction_start_after ∧ correction_start_after ≤ 65535) then
    .error .invalidValue
  else
    let c := pack16 correction_start_after.toNat
    .ok [0x15, P0, P1.toNat, P2.toNat, c.1, c.2, 0x0, 0x0]

/-- MonoPack.conf_auto_position_correction ($58).  Source check: P0 in
range(256) and tolerance in range(65536); the retry-count parameter P1 is
placed into the command list without any validation. -/
def conf_auto_position_correction (P0 : ℤ) (P1 : ℕ) (tolerance : ℤ) : Except PyExc (List ℕ) :=
  if ¬(0 ≤ P0 ∧ P0 ≤ 255) ∨ ¬(0 ≤ tolerance ∧ tolerance ≤ 65535) then
    .error .invalidValue
  else
    let t := pack16 tolerance.toNat
    .ok [0x58, P0.toNat, P1, 0x0, t.1, t.2, 0x0, 0x0]

/-- MonoPack.set_can_send_id ($56).  The source performs no range check of
its own; struct.pack with format I raises struct.error when ID is negative
or at least 2^32, and otherwise the frame is sent for any ID, including
values exceeding the documented 11 usable bits. -/
def set_can_send_id (P0 : ℕ) (ID : ℤ) : Except PyExc (List ℕ) :=
  if ¬(0 ≤ ID ∧ ID < 4294967296) then
    .error .structError
  else
    let b := pack32 ID.toNat
    .ok [0x56, P0, b.1, b.2.1, b.2.2.1, b.2.2.2, 0x0, 0x0]

/-- MonoPack.set_can_receive_rs485_ID ($55).  Like set_can_send_id, no range
check of its own. -/
def set_can_receive_rs485_ID (P0 : ℕ) (ID : ℤ) : Except PyExc (List ℕ) :=
  if ¬(0 ≤ ID ∧ ID < 4294967296) then
    .error .structError
  else
    let b := pack32 ID.toNat
    .ok [0x55, P0, b.1, b.2.1, b.2.2.1, b.2.2.2, 0x0, 0x0]

/-- MonoPack.drive_a_ramp ($23).  Source check: position in
range(-8388608, 16777216); on success P1..P4 hold the position as a
little-endian 32-bit two's-complement value. -/
def drive_a_ramp (P0 : ℕ) (position : ℤ) : Except PyExc (List ℕ) :=
  if ¬(-8388608 ≤ position ∧ position ≤ 16777215) then
    .error .invalidValue
  else
    let b := pack32 (position % 4294967296).toNat
    .ok [0x23, P0, b.1, b.2.1, b.2.2.1, b.2.2.2, 0x0, 0x0]

/-- Response DATA of one telegram as handed back by the CAN transport: the
8 bytes [cmd, P0, P1, P2, P3, P4, P5, P6]. -/
structure Resp where
  b0 : ℕ
  b1 : ℕ
  b2 : ℕ
  b3 : ℕ
  b4 : ℕ
  b5 : ℕ
  b6 : ℕ
  b7 : ℕ
deriving DecidableEq, Repr

/-- Signed 16-bit little-endian decode, as struct.unpack with format h. -/
def toInt16 (lo hi : ℕ) : ℤ :=
  let n := lo + 256 * hi
  if n < 32768 then (n : ℤ) else (n : ℤ) - 65536

/-- Signed 32-bit little-endian decode, as struct.unpack with format i or l. -/
def toInt32 (a b c d : ℕ) : ℤ :=
  let n := a + 256 * b + 65536 * c + 16777216 * d
  if n < 2147483648 then (n : ℤ) else (n : ℤ) - 4294967296

/-- MonoPack.get_actual_position ($20).  On a transport failure the except
clause logs and re-raises; on success the position is unpacked from response
bytes 2..5 (P1..P4) with no comparison of the echoed command byte b0. -/
def get_actual_position (resp : Option Resp) : Except PyExc ℤ :=
  match resp with
  | none => .error .transportError
  | some r => .ok (toInt32 r.b2 r.b3 r.b4 r.b5)

/-- MonoPack.get_actual_acceleration_velocity ($21).  Decodes velocity from
P1,P2, acceleration from P3,P4, the reference-search flag from P5 and the
auto-correction flag from P6; re-raises on transport failure; no echo check
of b0. -/
def get_actual_acceleration_velocity (resp : Option Resp) :
    Except PyExc (ℤ × ℤ × Bool × Bool) :=
  match resp with
  | none => .error .transportError
  | some r => .ok (toInt16 r.b2 r.b3, toInt16 r.b4 r.b5, r.b6 != 0, r.b7 != 0)

/-- MonoPack.get_version_number ($43).  Firmware revision is byte 1 (P0)
divided by 100, the reset flag is byte 2 (P1) as a bool, temperature is the
signed 16-bit value in bytes 4,5 (P3,P4) divided by 10; re-raises on
transport failure; no echo check of b0. -/
def get_version_number (resp : Option Resp) : Except PyExc (ℚ × Bool × ℚ) :=
  match resp with
  | none => .error .transportError
  | some r => .ok ((r.b1 : ℚ) / 100, r.b2 != 0, (toInt16 r.b4 r.b5 : ℚ) / 10)

/-- MonoPack.reset_alarm ($74).  On a transport failure the except clause
only logs (no raise statement), execution falls through to the return
statement, and reading the never-assigned result variables there raises
UnboundLocalError; the original transport error is not re-raised.  On
success the five alarm-reason flags are returned. -/
def reset_alarm (resp : Option Resp) :
    Except PyExc (Bool × Bool × Bool × Bool × Bool) :=
  match resp with
  | none => .error .unboundLocal
  | some r => .ok (r.b2 != 0, r.b3 != 0, r.b4 != 0, r.b5 != 0, r.b6 != 0)

/-- MonoPack.get_stop_switches_state ($30).  On a transport failure the
except clause only logs and the return statement raises UnboundLocalError.
On a successful exchange the source evaluates bool(response_data[2])[0],
which raises TypeError (a bool is not subscriptable); that TypeError is
caught by the same except clause, logged, and the return statement again
raises UnboundLocalError.  The call therefore never returns a value and
never propagates the transport error itself. -/
def get_stop_switches_state (resp : Option Resp) :
    Except PyExc (Bool × Bool × Bool) :=
  match resp with
  | none => .error .unboundLocal
  | some _ => .error .unboundLocal

/-!
Stage controller StagesPI (stages_monopack.py).  Soft limits are the class
constants x_min = y_min = 0 and x_max = y_max = 400 (millimeters).  Both
axes are constructed with the MonoPack default step of 0.0002 mm per raw
unit.  Bus commands issued by the controller are modelled as an event trace;
the blocking readiness poll of an axis is modelled as a single poll event in
that trace (its internal telegram traffic consists only of $21 queries).
-/

/-- Step size in mm per raw microstep unit: the MonoPack constructor default
step = 0.0002. -/
def STEP : ℚ := 2 / 10000

/-- Python round with one argument: round-half-to-even on the exact value. -/
def pyRound (q : ℚ) : ℤ :=
  let f := ⌊q⌋
  let r := q - (f : ℚ)
  if r < 1 / 2 then f
  else if 1 / 2 < r then f + 1
  else if Even f then f else f + 1

/-- StagesPI.limit_positions on the x coordinate: return x when
check_position_limit accepts it (x_min ≤ x ≤ x_max), else the violated
bound.  For a finite input one of the three branches always applies. -/
def limit_positions_x (x : ℚ) : ℚ :=
  if 0 ≤ x ∧ x ≤ 400 then x
  else if x ≤ 0 then 0
  else if 400 ≤ x then 400
  else x

/-- StagesPI.limit_positions on the y coordinate; the y branch mirrors the
x branch with the y limits, which have the same values 0 and 400. -/
def limit_positions_y (y : ℚ) : ℚ :=
  if 0 ≤ y ∧ y ≤ 400 then y
  else if y ≤ 0 then 0
  else if 400 ≤ y then 400
  else y

/-- The two stage axes. -/
inductive Axis where
  | X
  | Y
deriving DecidableEq, Repr

/-- Bus commands the controller issues to one axis, in the order they are
handed to the transport: reference_search ($22), the blocking readiness
poll of is_ready (a run of $21 queries), pid_6F ($6F), reset_position
($27), and drive_a_ramp ($23) with its P0 byte and raw target position. -/
inductive Event where
  | search (a : Axis)
  | poll (a : Axis)
  | pid (a : Axis)
  | resetPos (a : Axis)
  | ramp (a : Axis) (P0 : ℕ) (position : ℤ)
deriving DecidableEq, Repr

/-- Mutable controller state the claims are about: the position cache x_mm,
y_mm and the three gate flags checked by every motion method. -/
structure StagesState where
  x_mm : ℚ
  y_mm : ℚ
  is_referenced : Bool
  is_connected : Bool
  is_enabled : Bool
deriving DecidableEq, Repr

/-- StagesPI.set_new_pos: each supplied coordinate is passed through
limit_positions again before being stored in the cache; an absent
coordinate leaves its cache entry untouched. -/
def set_new_pos (st : StagesState) (x y : Option ℚ) : StagesState :=
  { st with
    x_mm := match x with
      | some v => limit_positions_x v
      | none => st.x_mm
    y_mm := match y with
      | some v => limit_positions_y v
      | none => st.y_mm }

/-- StagesPI.move_to_x: when referenced, connected and enabled, clamp the
requested position with limit_positions, command
drive_a_ramp(position=round(x_new/STEP)) on axis X (default P0 = 0), and
update the cache through set_new_pos; otherwise do nothing. -/
def move_to_x (st : StagesState) (position : ℚ) : StagesState × List Event :=
  if st.is_referenced && st.is_connected && st.is_enabled then
    let x_new := limit_positions_x position
    (set_new_pos st (some x_new) none, [.ramp .X 0 (pyRound (x_new / STEP))])
  else
    (st, [])

/-- StagesPI.move_to_y, symmetric to move_to_x. -/
def move_to_y (st : StagesState) (position : ℚ) : StagesState × List Event :=
  if st.is_referenced && st.is_connected && st.is_enabled then
    let y_new := limit_positions_y position
    (set_new_pos st none (some y_new), [.ramp .Y 0 (pyRound (y_new / STEP))])
  else
    (st, [])

/-- StagesPI.update_current_pos: re-store the positions read back from the
encoders through set_new_pos.  The readback values (get_x / get_y) are
passed in as parameters; a None stands for a failed read, whose coordinate
set_new_pos then skips. -/
def update_current_pos (st : StagesState) (rx ry : Option ℚ) : StagesState :=
  set_new_pos st rx ry

/-- StagesPI.go_home: when referenced, connected and enabled, issue
drive_a_ramp(position=0) (default P0 = 0) on each requested axis.  The
source updates no cache entry and performs no readiness poll here. -/
def go_home (st : StagesState) (hasX hasY : Bool) : StagesState × List Event :=
  if st.is_referenced && st.is_connected && st.is_enabled then
    (st, (if hasX then [Event.ramp .X 0 0] else []) ++
         (if hasY then [Event.ramp .Y 0 0] else []))
  else
    (st, [])

/-- Composition the specification describes for go_home: move_to with
target 0 restricted to the requested axes, followed by await_ready on those
axes.  This definition follows the wording of the specification, for
comparison with go_home. -/
def goHomeSpec (st : StagesState) (hasX hasY : Bool) : StagesState × List Event :=
  let s1 := if hasX then move_to_x st 0 else (st, [])
  let s2 := if hasY then move_to_y s1.1 0 else (s1.1, [])
  (s2.1, s1.2 ++ s2.2 ++
    (if hasX then [Event.poll .X] else []) ++
    (if hasY then [Event.poll .Y] else []))

/-- Bus-command trace of StagesPI.reference_stages for a requested axis set
(hasX and hasY stand for the occurrence of the letters X and Y in the stage
argument): reference_search per requested axis, then is_ready per requested
axis, then pid_6F(0,0) and reset_position on both axes unconditionally,
then drive_a_ramp(P0=0x01, position=2500) per requested axis, then is_ready
per requested axis. -/
def referenceTrace (hasX hasY : Bool) : List Event :=
  (if hasX then [Event.search .X] else []) ++
  (if hasY then [Event.search .Y] else []) ++
  (if hasX then [Event.poll .X] else []) ++
  (if hasY then [Event.poll .Y] else []) ++
  [Event.pid .X, Event.pid .Y, Event.resetPos .X, Event.resetPos .Y] ++
  (if hasX then [Event.ramp .X 1 2500] else []) ++
  (if hasY then [Event.ramp .Y 1 2500] else []) ++
  (if hasX then [Event.poll .X] else []) ++
  (if hasY then [Event.poll .Y] else [])

/-- StagesPI.reference_stages: emit the reference trace and finish by
setting is_referenced to True. -/
def reference_stages (st : StagesState) (hasX hasY : Bool) :
    StagesState × List Event :=
  ({ st with is_referenced := true }, referenceTrace hasX hasY)

/-- Whether an axis is in the requested set. -/
def requested (hasX hasY : Bool) : Axis → Bool
  | .X => hasX
  | .Y => hasY

/-- Whether an event is a ramp command to the given axis. -/
def isRampTo (a : Axis) : Event → Bool
  | .ramp b _ _ => a == b
  | _ => false

/-- Whether an event is any ramp command. -/
def isRampEv : Event → Bool
  | .ramp _ _ _ => true
  | _ => false

/-- Whether an event is a readiness poll. -/
def isPollEv : Event → Bool
  | .poll _ => true
  | _ => false

/-- Whether an event is one of the post-search control commands of
reference_stages: pid_6F, reset_position or drive_a_ramp. -/
def isCtrlEv : Event → Bool
  | .pid _ => true
  | .resetPos _ => true
  | .ramp _ _ _ => true
  | _ => false

/-- Serialization property of one axis within a reference trace t: the
axis's search command precedes its first readiness poll, no ramp command to
the axis appears before that first poll, the first pid/reset/ramp control
command appears only after that first poll, and after the axis's
post-reference ramp a further poll of the axis follows. -/
def axisSerialized (a : Axis) (t : List Event) : Prop :=
  Event.search a ∈ t.takeWhile (fun e => e != Event.poll a) ∧
  (∀ e ∈ t.takeWhile (fun e => e != Event.poll a), isRampTo a e = false) ∧
  Event.poll a ∈ t ∧
  Event.poll a ∈ t.takeWhile (fun e => !isCtrlEv e) ∧
  Event.poll a ∈ t.dropWhile (fun e => !isRampTo a e)

/-- One poll result of MonoPack.get_actual_acceleration_velocity as consumed
by StagesPI.is_ready: actual velocity, actual acceleration, the
reference-search-active flag and the auto-correction-active flag. -/
structure Poll where
  velocity : ℤ
  accel : ℤ
  search : Bool
  autocorr : Bool
deriving DecidableEq, Repr

/-- The readiness test of one poll in is_ready: the source counts the poll
as ready when not check_it[0] and not check_it[2], i.e. when the actual
velocity is 0 and the reference-search flag is clear. -/
def isReadyPoll (p : Poll) : Bool := p.velocity == 0 && !p.search

/-- Value of the attempt counter of StagesPI.is_ready after consuming the
first n polls of the stream s: a ready poll increments it, any other poll
resets it to 0.  The inner loop (while attempt < 2) exits exactly at the
first n at which this value reaches 2. -/
def attemptSeq (s : ℕ → Poll) : ℕ → ℕ
  | 0 => 0
  | n + 1 => if isReadyPoll (s n) then attemptSeq s n + 1 else 0

/-- The poll loop of is_ready declares the axis ready after exactly n polls:
the attempt counter reaches 2 there for the first time. -/
def readyDeclaredAt (s : ℕ → Poll) (n : ℕ) : Prop :=
  2 ≤ attemptSeq s n ∧ ∀ m < n, attemptSeq s m < 2

/-- A poll stream of an axis that reports nonzero actual velocity on every
poll (reference search inactive). -/
def stalledStream : ℕ → Poll := fun _ => ⟨1, 0, false, false⟩

/-!
Helper lemmas shared by several claims.
-/

/-- Both limit_positions branches return a value inside the soft limits. -/
theorem limit_positions_x_mem (x : ℚ) :
    0 ≤ limit_positions_x x ∧ limit_positions_x x ≤ 400 := by
  unfold limit_positions_x
  split
  · next h => exact h
  · split
    · norm_num
    · split
      · norm_num
      · next h1 h2 h3 => exact absurd ⟨(not_le.mp h2).le, (not_le.mp h3).le⟩ h1

theorem limit_positions_y_mem (y : ℚ) :
    0 ≤ limit_positions_y y ∧ limit_positions_y y ≤ 400 := by
  unfold limit_positions_y
  split
  · next h => exact h
  · split
    · norm_num
    · split
      · norm_num
      · next h1 h2 h3 => exact absurd ⟨(not_le.mp h2).le, (not_le.mp h3).le⟩ h1

/-- A value already inside the soft limits passes limit_positions unchanged,
so the re-clamp inside set_new_pos is the identity on clamped values. -/
theorem limit_positions_x_of_mem {x : ℚ} (h : 0 ≤ x ∧ x ≤ 400) :
    limit_positions_x x = x := by
  unfold limit_positions_x
  exact if_pos h

theorem limit_positions_y_of_mem {y : ℚ} (h : 0 ≤ y ∧ y ≤ 400) :
    limit_positions_y y = y := by
  unfold limit_positions_y
  exact if_pos h

/-- Round-half-to-even of a nonnegative rational is nonnegative. -/
theorem pyRound_nonneg {q : ℚ} (h : 0 ≤ q) : 0 ≤ pyRound q := by
  unfold pyRound
  have hf : 0 ≤ ⌊q⌋ := Int.floor_nonneg.mpr h
  dsimp only
  split
  · exact hf
  · split
    · omega
    · split <;> omega

theorem pyRound_zero : pyRound 0 = 0 := by norm_num [pyRound]

/-- The attempt counter advances by at most one per poll. -/
theorem attemptSeq_le (s : ℕ → Poll) : ∀ n, attemptSeq s n ≤ n := by
  intro n
  induction n with
  | zero => exact Nat.le_refl 0
  | succ k ih =>
      unfold attemptSeq
      split
      · omega
      · omega

/-- C2: the claim states that every axis-driver operation transmits the
command code it implements, in particular that encoder_configuration sends
$70 and set_deviation_alarm sends $73.  The code contradicts its own
docstrings: both operations build their command list with first element
$15 (the code of set_microsteps_per_revolution), so the frames carry the
wrong command byte.  Evaluated at the parameter values used by
set_default_parameters. -/
theorem encoder_and_deviation_send_wrong_command :
    encoder_configuration 1 64 3 2 16 = .ok [0x15, 1, 64, 3, 16, 0, 2, 0] ∧
    (0x15 : ℕ) ≠ 0x70 ∧
    set_deviation_alarm 1 0 0 1 = .ok [0x15, 1, 0, 0, 1, 0, 0, 0] ∧
    (0x15 : ℕ) ≠ 0x73 :=
  ⟨rfl, by decide, rfl, by decide⟩

/-- C3: the claim states that the readiness poll loop of is_ready is a
bounded retry loop that returns a Timeout outcome when an axis reports
nonzero velocity on every poll.  The code has no bound: for the stream that
always reports velocity 1, the attempt counter is reset on every poll and
never reaches 2, so the loop condition (attempt < 2) holds after every
finite number of polls, the loop never exits, and no Timeout outcome exists
in the source. -/
theorem is_ready_never_exits_on_stalled_axis (n : ℕ) :
    attemptSeq stalledStream n = 0 ∧ ¬ readyDeclaredAt stalledStream n := by
  have h : ∀ m, attemptSeq stalledStream m = 0 := by
    intro m
    induction m with
    | zero => rfl
    | succ k ih => simp [attemptSeq, stalledStream, isReadyPoll, ih]
  refine ⟨h n, ?_⟩
  rintro ⟨h2, -⟩
  rw [h n] at h2
  omega

/-- C7 counterexample: the claim states that every get operation fails with
a protocol-mismatch error when the echoed command byte differs from the
request.  get_actual_position decodes a response whose command byte is $99
instead of the requested $20 and still returns the decoded position as a
success. -/
theorem get_actual_position_no_echo_check :
    get_actual_position (some ⟨0x99, 0, 1, 0, 0, 0, 0, 0⟩) = .ok 1 ∧
    (0x99 : ℕ) ≠ 0x20 :=
  ⟨rfl, by decide⟩

/-- C7 amended: the get operations perform no echo check at all: their
result is a function of the payload bytes only, independent of the echoed
command byte b0, so a response with a mismatched command byte is decoded
and returned as a success exactly like a matching one. -/
theorem get_ops_ignore_echoed_command (r : Resp) (c : ℕ) :
    get_actual_position (some { r with b0 := c }) = get_actual_position (some r) ∧
    get_actual_acceleration_velocity (some { r with b0 := c }) =
      get_actual_acceleration_velocity (some r) ∧
    get_version_number (some { r with b0 := c }) = get_version_number (some r) :=
  ⟨rfl, rfl, rfl⟩

/-- C9: the claim states that reset_alarm and get_stop_switches_state
propagate a failed exchange to the caller.  Their except clauses have no
raise statement: the transport error is logged and swallowed, and the
subsequent return statement raises UnboundLocalError instead, so the
propagated exception is not the transport failure (contrast
get_actual_position, whose except clause does re-raise).  On a successful
exchange get_stop_switches_state also ends in UnboundLocalError because
bool(response_data[2])[0] raises TypeError inside the same try block. -/
theorem alarm_and_switch_reads_swallow_transport_error :
    reset_alarm none = .error .unboundLocal ∧
    PyExc.unboundLocal ≠ PyExc.transportError ∧
    get_stop_switches_state none = .error .unboundLocal ∧
    get_stop_switches_state (some ⟨0x30, 0, 1, 1, 1, 0, 0, 0⟩) = .error .unboundLocal ∧
    get_actual_position none = .error .transportError :=
  ⟨rfl, by decide, rfl, rfl, rfl⟩

/-- A poll stream that is ready on the first two polls and stalled after. -/
def readyTwiceStream : ℕ → Poll :=
  fun n => if n < 2 then ⟨0, 0, false, false⟩ else ⟨1, 0, false, false⟩

/-- A poll stream that is ready on the first poll only. -/
def bounceStream : ℕ → Poll :=
  fun n => if n = 0 then ⟨0, 0, false, false⟩ else ⟨1, 0, false, false⟩

/-- C4: is_ready declares an axis ready only after two consecutive polls
each reporting velocity 0 with the reference-search flag clear (first
conjunct: a declaration after n polls forces the last two polls to be
ready polls), and a ready poll followed by a non-ready poll resets the
attempt counter to 0, so the axis is not declared ready at that point
(second conjunct). -/
theorem is_ready_debounces_two_consecutive_polls (s : ℕ → Poll) (n k : ℕ) :
    (readyDeclaredAt s n →
      2 ≤ n ∧ isReadyPoll (s (n - 1)) = true ∧ isReadyPoll (s (n - 2)) = true) ∧
    (isReadyPoll (s k) = true → isReadyPoll (s (k + 1)) = false →
      attemptSeq s (k + 2) = 0 ∧ ¬ readyDeclaredAt s (k + 2)) := by
  constructor
  · rintro ⟨h2, -⟩
    have hn : 2 ≤ n := le_trans h2 (attemptSeq_le s n)
    obtain ⟨m, rfl⟩ : ∃ m, n = m + 2 := ⟨n - 2, by omega⟩
    refine ⟨hn, ?_⟩
    have e1 : m + 2 - 1 = m + 1 := rfl
    have e2 : m + 2 - 2 = m := rfl
    rw [e1, e2]
    unfold attemptSeq at h2
    by_cases hr1 : isReadyPoll (s (m + 1)) = true
    · rw [if_pos hr1] at h2
      refine ⟨hr1, ?_⟩
      by_cases hr0 : isReadyPoll (s m) = true
      · exact hr0
      · rw [Bool.not_eq_true] at hr0
        unfold attemptSeq at h2
        rw [if_neg (by simp [hr0])] at h2
        omega
    · rw [Bool.not_eq_true] at hr1
      rw [if_neg (by simp [hr1])] at h2
      omega
  · intro h1 h2
    have h0 : attemptSeq s (k + 2) = 0 := by
      unfold attemptSeq
      rw [if_neg (by simp [h2])]
    refine ⟨h0, ?_⟩
    rintro ⟨hd, -⟩
    rw [h0] at hd
    omega

/-- Witness for C4 at concrete poll streams: with two ready polls the
declaration after two polls indeed has the last two polls ready, and with a
ready poll followed by a non-ready poll the counter is back at 0 after
them. -/
theorem is_ready_debounces_two_consecutive_polls_witness :
    (2 ≤ 2 ∧ isReadyPoll (readyTwiceStream (2 - 1)) = true ∧
      isReadyPoll (readyTwiceStream (2 - 2)) = true) ∧
    (attemptSeq bounceStream (0 + 2) = 0 ∧ ¬ readyDeclaredAt bounceStream (0 + 2)) :=
  ⟨(is_ready_debounces_two_consecutive_polls readyTwiceStream 2 0).1
      ⟨by decide, by decide⟩,
   (is_ready_debounces_two_consecutive_polls bounceStream 0 0).2 (by decide) (by decide)⟩

/-- C5 counterexample: the claim states that pre-transport range validation
is uniform across all set operations, including the CAN-ID setters and the
auto-position-correction configuration.  conf_auto_position_correction
accepts a retry-count P1 of 300, outside its documented range 0..255, and
hands the frame to the transport; set_can_send_id accepts an ID of 4096,
above the documented 11 usable bits, and sends it. -/
theorem set_validation_not_uniform :
    conf_auto_position_correction 1 300 0 = .ok [0x58, 1, 300, 0x0, 0, 0, 0x0, 0x0] ∧
    ¬(300 ≤ 255) ∧
    set_can_send_id 1 4096 = .ok [0x56, 1, 0, 16, 0, 0, 0x0, 0x0] ∧
    (2047 : ℤ) < 4096 :=
  ⟨rfl, by decide, rfl, by decide⟩

/-- C5 amended: the ranges the claim enumerates are validated before any
transport call — velocity or acceleration outside 1..8191, a current byte
outside 0..255, a microstep resolution outside 1..67 and a deviation
outside 0..2047 each yield InvalidValue with no frame — but the validation
is not uniform: set_can_send_id performs no range check of its own (any ID
below 2^32 is sent, including values above the documented 11 bits), and
conf_auto_position_correction validates only the storage byte P0 and the
tolerance, sending a frame whatever the retry-count P1 is. -/
theorem set_ops_range_validation (v a c1 c2 c3 m1 dev ID P0c tol : ℤ) (Pr : ℕ) :
    (¬(1 ≤ v ∧ v ≤ 8191) → set_velocity 1 v a = .error .invalidValue) ∧
    (¬(1 ≤ a ∧ a ≤ 8191) → set_velocity 1 v a = .error .invalidValue) ∧
    (¬(0 ≤ c1 ∧ c1 ≤ 255) → set_current_control 1 c1 c2 c3 = .error .invalidValue) ∧
    (¬(1 ≤ m1 ∧ m1 ≤ 67) → set_microstep_resolution 1 m1 0 1 = .error .invalidValue) ∧
    (¬(0 ≤ dev ∧ dev ≤ 2047) → encoder_configuration 1 64 3 2 dev = .error .invalidValue) ∧
    (0 ≤ ID ∧ ID < 4294967296 → ∃ frame, set_can_send_id 1 ID = .ok frame) ∧
    (0 ≤ P0c ∧ P0c ≤ 255 → 0 ≤ tol ∧ tol ≤ 65535 →
      ∃ frame, conf_auto_position_correction P0c Pr tol = .ok frame) := by
  refine ⟨?_, ?_, ?_, ?_, ?_, ?_, ?_⟩
  · intro h
    unfold set_velocity
    rw [if_pos (Or.inl h)]
  · intro h
    unfold set_velocity
    rw [if_pos (Or.inr h)]
  · intro h
    unfold set_current_control
    rw [if_pos (Or.inl h)]
  · intro h
    unfold set_microstep_resolution
    rw [if_pos (Or.inl h)]
  · intro h
    unfold encoder_configuration
    rw [if_pos (Or.inr (Or.inr (Or.inl h)))]
  · intro h
    refine ⟨[0x56, 1, (pack32 ID.toNat).1, (pack32 ID.toNat).2.1,
      (pack32 ID.toNat).2.2.1, (pack32 ID.toNat).2.2.2, 0x0, 0x0], ?_⟩
    unfold set_can_send_id
    rw [if_neg (not_not_intro h)]
  · intro hP htol
    refine ⟨[0x58, P0c.toNat, Pr, 0x0, (pack16 tol.toNat).1,
      (pack16 tol.toNat).2, 0x0, 0x0], ?_⟩
    unfold conf_auto_position_correction
    rw [if_neg (by push_neg; exact ⟨hP, htol⟩)]

/-- Witness for C5 at concrete values: velocity 0 and acceleration 8192 are
rejected, current byte 256 is rejected, microstep resolution 68 is
rejected, deviation 2048 is rejected, while ID 4096 and retry count 300 are
sent. -/
theorem set_ops_range_validation_witness :
    set_velocity 1 0 245 = .error .invalidValue ∧
    set_velocity 1 4915 8192 = .error .invalidValue ∧
    set_current_control 1 256 0 0 = .error .invalidValue ∧
    set_microstep_resolution 1 68 0 1 = .error .invalidValue ∧
    encoder_configuration 1 64 3 2 2048 = .error .invalidValue ∧
    (∃ frame, set_can_send_id 1 4096 = .ok frame) ∧
    (∃ frame, conf_auto_position_correction 1 300 0 = .ok frame) := by
  have hA := set_ops_range_validation 0 245 256 0 0 68 2048 4096 1 0 300
  have hB := set_ops_range_validation 4915 8192 256 0 0 68 2048 4096 1 0 300
  exact ⟨hA.1 (by decide), hB.2.1 (by decide), hA.2.2.1 (by decide),
    hA.2.2.2.1 (by decide), hA.2.2.2.2.1 (by decide),
    hA.2.2.2.2.2.1 (by decide),
    hA.2.2.2.2.2.2 (by decide) (by decide)⟩

/-- C1: when the gate flags allow a move, move_to_x first clamps the
requested coordinate into the soft limits 0..400 with limit_positions and
then commands the single raw target round(clamped/STEP) on axis X; the
clamped value lies in 0..400, the commanded raw target is nonnegative (so
a negative-position frame is never produced), and the cache records the
clamped coordinate; move_to_y behaves symmetrically. -/
theorem move_to_clamps_before_conversion (st : StagesState) (pos : ℚ)
    (hg : (st.is_referenced && st.is_connected && st.is_enabled) = true) :
    (move_to_x st pos).2 =
      [Event.ramp Axis.X 0 (pyRound (limit_positions_x pos / STEP))] ∧
    0 ≤ limit_positions_x pos ∧ limit_positions_x pos ≤ 400 ∧
    0 ≤ pyRound (limit_positions_x pos / STEP) ∧
    (move_to_x st pos).1.x_mm = limit_positions_x pos ∧
    (move_to_y st pos).2 =
      [Event.ramp Axis.Y 0 (pyRound (limit_positions_y pos / STEP))] ∧
    0 ≤ pyRound (limit_positions_y pos / STEP) := by
  have hxm := limit_positions_x_mem pos
  have hym := limit_positions_y_mem pos
  have hSTEP : (0 : ℚ) < STEP := by norm_num [STEP]
  refine ⟨?_, hxm.1, hxm.2, ?_, ?_, ?_, ?_⟩
  · simp [move_to_x, hg]
  · exact pyRound_nonneg (div_nonneg hxm.1 hSTEP.le)
  · simp [move_to_x, set_new_pos, hg, limit_positions_x_of_mem hxm]
  · simp [move_to_y, hg]
  · exact pyRound_nonneg (div_nonneg hym.1 hSTEP.le)

/-- Witness for C1 at the claims' concrete input: a request of -10 mm on a
referenced, connected, enabled controller is clamped to 0 and the commanded
raw target equals round(0/STEP) = 0. -/
theorem move_to_clamps_before_conversion_witness :
    (move_to_x ⟨0, 0, true, true, true⟩ (-10)).2 = [Event.ramp Axis.X 0 0] ∧
    limit_positions_x (-10) = 0 := by
  have h := move_to_clamps_before_conversion ⟨0, 0, true, true, true⟩ (-10) rfl
  have hl : limit_positions_x (-10) = 0 := by norm_num [limit_positions_x]
  refine ⟨?_, hl⟩
  rw [h.1, hl, zero_div, pyRound_zero]

/-- Every ramp command of a reference trace goes to a requested axis with
P0 byte 0x01 and raw target 2500. -/
def rampOk (hasX hasY : Bool) : Event → Bool
  | .ramp a P0 pos => requested hasX hasY a && P0 == 1 && pos == 2500
  | _ => true

instance axisSerializedDecidable (a : Axis) (t : List Event) :
    Decidable (axisSerialized a t) := by
  unfold axisSerialized
  infer_instance

/-- C6: within reference_stages, each requested axis's reference-search
command precedes its readiness poll and no ramp command to that axis is
issued in between; the pid_6F, reset_position and drive_a_ramp commands all
come only after every requested axis's search has been polled to
completion; every ramp is the fixed post-reference offset 2500 (with P0 =
0x01) on a requested axis and is followed by a further poll of that axis;
and the controller finishes with is_referenced true. -/
theorem reference_stages_serializes_search_and_offset (st : StagesState)
    (hasX hasY : Bool) :
    (hasX = true → axisSerialized Axis.X (referenceTrace hasX hasY)) ∧
    (hasY = true → axisSerialized Axis.Y (referenceTrace hasX hasY)) ∧
    (∀ e ∈ referenceTrace hasX hasY, rampOk hasX hasY e = true) ∧
    (reference_stages st hasX hasY).1.is_referenced = true := by
  cases hasX <;> cases hasY <;> exact ⟨by decide, by decide, by decide, rfl⟩

/-- Witness for C6 with both axes requested: the serialization property of
each axis holds on the concrete trace. -/
theorem reference_stages_serializes_search_and_offset_witness :
    axisSerialized Axis.X (referenceTrace true true) ∧
    axisSerialized Axis.Y (referenceTrace true true) :=
  ⟨(reference_stages_serializes_search_and_offset ⟨0, 0, false, true, true⟩
      true true).1 rfl,
   (reference_stages_serializes_search_and_offset ⟨0, 0, false, true, true⟩
      true true).2.1 rfl⟩

/-- C8 counterexample: the claim states that go_home is observably
equivalent to move_to(0) on the requested axes followed by await_ready,
including the position-cache update and the blocking wait.  On a referenced,
connected, enabled controller whose cache reads x = 5, go_home leaves the
cache at 5 while the move_to composition sets it to 0, and go_home's trace
contains no readiness poll while the composition's does. -/
theorem go_home_skips_cache_and_polling :
    (go_home ⟨5, 7, true, true, true⟩ true true).1.x_mm = 5 ∧
    (goHomeSpec ⟨5, 7, true, true, true⟩ true true).1.x_mm = 0 ∧
    (5 : ℚ) ≠ 0 ∧
    Event.poll Axis.X ∈ (goHomeSpec ⟨5, 7, true, true, true⟩ true true).2 ∧
    Event.poll Axis.X ∉ (go_home ⟨5, 7, true, true, true⟩ true true).2 := by
  refine ⟨rfl, ?_, by norm_num, ?_, ?_⟩
  · norm_num [goHomeSpec, move_to_x, move_to_y, set_new_pos, go_home,
      limit_positions_x, limit_positions_y]
  · simp [goHomeSpec, move_to_x, move_to_y, set_new_pos, go_home]
  · simp [go_home]

/-- C8 amended: go_home commands the same raw targets as the move_to(0)
composition (the ramp events of both traces agree, target 0 per requested
axis), but it performs no position-cache update (the controller state is
returned unchanged) and does not wait for readiness (its trace contains no
poll event). -/
theorem go_home_matches_move_to_targets_only (st : StagesState) (hasX hasY : Bool)
    (hg : (st.is_referenced && st.is_connected && st.is_enabled) = true) :
    (go_home st hasX hasY).2.filter isRampEv =
      (goHomeSpec st hasX hasY).2.filter isRampEv ∧
    (go_home st hasX hasY).1 = st ∧
    (go_home st hasX hasY).2.filter isPollEv = [] := by
  have h0 : limit_positions_x 0 = 0 := by norm_num [limit_positions_x]
  have h0y : limit_positions_y 0 = 0 := by norm_num [limit_positions_y]
  have hr : pyRound (0 / STEP) = 0 := by rw [zero_div, pyRound_zero]
  cases hasX <;> cases hasY <;>
    simp [go_home, goHomeSpec, move_to_x, move_to_y, set_new_pos, hg,
      h0, h0y, hr, pyRound_zero, isRampEv, isPollEv]

/-- Witness for C8 amended on a concrete referenced controller requesting
both axes. -/
theorem go_home_matches_move_to_targets_only_witness :
    (go_home ⟨1, 2, true, true, true⟩ true true).1 = ⟨1, 2, true, true, true⟩ ∧
    (go_home ⟨1, 2, true, true, true⟩ true true).2.filter isPollEv = [] ∧
    (go_home ⟨1, 2, true, true, true⟩ true true).2.filter isRampEv =
      (goHomeSpec ⟨1, 2, true, true, true⟩ true true).2.filter isRampEv :=
  ⟨(go_home_matches_move_to_targets_only ⟨1, 2, true, true, true⟩ true true rfl).2.1,
   (go_home_matches_move_to_targets_only ⟨1, 2, true, true, true⟩ true true rfl).2.2,
   (go_home_matches_move_to_targets_only ⟨1, 2, true, true, true⟩ true true rfl).1⟩

/-- C10: every write of the position cache is re-clamped through
limit_positions inside set_new_pos, so after set_new_pos, move_to_x,
move_to_y or update_current_pos (with any readback values, including
encoder values far outside the travel range) both cached coordinates lie
within the soft limits 0..400, provided they did before the operation (a
coordinate the operation does not write keeps its previous clamped
value). -/
theorem position_cache_always_clamped (st : StagesState) (ox oy : Option ℚ)
    (p q : ℚ)
    (hx : 0 ≤ st.x_mm ∧ st.x_mm ≤ 400) (hy : 0 ≤ st.y_mm ∧ st.y_mm ≤ 400) :
    ((0 ≤ (set_new_pos st ox oy).x_mm ∧ (set_new_pos st ox oy).x_mm ≤ 400) ∧
     (0 ≤ (set_new_pos st ox oy).y_mm ∧ (set_new_pos st ox oy).y_mm ≤ 400)) ∧
    ((0 ≤ (move_to_x st p).1.x_mm ∧ (move_to_x st p).1.x_mm ≤ 400) ∧
     (0 ≤ (move_to_x st p).1.y_mm ∧ (move_to_x st p).1.y_mm ≤ 400)) ∧
    ((0 ≤ (move_to_y st q).1.x_mm ∧ (move_to_y st q).1.x_mm ≤ 400) ∧
     (0 ≤ (move_to_y st q).1.y_mm ∧ (move_to_y st q).1.y_mm ≤ 400)) ∧
    ((0 ≤ (update_current_pos st ox oy).x_mm ∧
        (update_current_pos st ox oy).x_mm ≤ 400) ∧
     (0 ≤ (update_current_pos st ox oy).y_mm ∧
        (update_current_pos st ox oy).y_mm ≤ 400)) := by
  have hset : ∀ o1 o2 : Option ℚ,
      ((0 ≤ (set_new_pos st o1 o2).x_mm ∧ (set_new_pos st o1 o2).x_mm ≤ 400) ∧
       (0 ≤ (set_new_pos st o1 o2).y_mm ∧ (set_new_pos st o1 o2).y_mm ≤ 400)) := by
    intro o1 o2
    constructor
    · cases o1 with
      | none => simpa [set_new_pos] using hx
      | some v => simpa [set_new_pos] using limit_positions_x_mem v
    · cases o2 with
      | none => simpa [set_new_pos] using hy
      | some v => simpa [set_new_pos] using limit_positions_y_mem v
  have hmx : (0 ≤ (move_to_x st p).1.x_mm ∧ (move_to_x st p).1.x_mm ≤ 400) ∧
      (0 ≤ (move_to_x st p).1.y_mm ∧ (move_to_x st p).1.y_mm ≤ 400) := by
    unfold move_to_x
    split
    · exact hset _ _
    · exact ⟨hx, hy⟩
  have hmy : (0 ≤ (move_to_y st q).1.x_mm ∧ (move_to_y st q).1.x_mm ≤ 400) ∧
      (0 ≤ (move_to_y st q).1.y_mm ∧ (move_to_y st q).1.y_mm ≤ 400) := by
    unfold move_to_y
    split
    · exact hset _ _
    · exact ⟨hx, hy⟩
  exact ⟨hset ox oy, hmx, hmy, hset ox oy⟩

/-- Witness for C10: a readback of 1000 mm (far beyond the travel) is
stored as 400 and a readback of -3 mm as 0; the hypotheses hold at the
concrete in-range cache (5, 7). -/
theorem position_cache_always_clamped_witness :
    ((0 ≤ (set_new_pos ⟨5, 7, true, true, true⟩ (some 1000) (some (-3))).x_mm ∧
       (set_new_pos ⟨5, 7, true, true, true⟩ (some 1000) (some (-3))).x_mm ≤ 400) ∧
     (0 ≤ (set_new_pos ⟨5, 7, true, true, true⟩ (some 1000) (some (-3))).y_mm ∧
       (set_new_pos ⟨5, 7, true, true, true⟩ (some 1000) (some (-3))).y_mm ≤ 400)) ∧
    (set_new_pos ⟨5, 7, true, true, true⟩ (some 1000) (some (-3))).x_mm = 400 ∧
    (set_new_pos ⟨5, 7, true, true, true⟩ (some 1000) (some (-3))).y_mm = 0 := by
  have h := position_cache_always_clamped ⟨5, 7, true, true, true⟩
    (some 1000) (some (-3)) 500 (-20) (by norm_num) (by norm_num)
  refine ⟨h.1, ?_, ?_⟩
  · norm_num [set_new_pos, limit_positions_x]
  · norm_num [set_new_pos, limit_positions_y]
